import Mathlib

/-!
Verification development for the pytriton inference client library.

The repository ships the unit tests of its asyncio client
(`src/tests/unit/test_asyncio_client.py`) but not the client implementation
itself (`pytriton/client`).  The definitions below are therefore a shallow
embedding modelled from the specification (`spec.md` sections 3, 4.1-4.3, 6, 7)
with the concrete behaviours pinned by the in-repository unit tests.  Tensors
are flat integer arrays with an explicit shape, the server is a time-indexed
view (liveness, readiness, repository index, per-model readiness probe,
config), and the readiness wait is a fuel-bounded poll loop.
-/

deriving instance DecidableEq for Except

namespace PyTriton

/-- Modelled from the spec: error taxonomy of section 7 plus the caller
contract `ValueError` carrying its message. -/
inductive ClientError where
  | invalidUrlError
  | timeoutError
  | modelUnavailableError
  | modelDoesntSupportBatchingError
  | valueError (msg : String)
deriving DecidableEq, Repr

/-- Modelled from the spec: model state reported by the repository index
(section 4.2 step 4); `UNLOADING` stands for "any other terminal non-ready
state". -/
inductive ModelState where
  | LOADING
  | READY
  | UNLOADING
  | UNAVAILABLE
deriving DecidableEq, Repr

/-- Modelled from the spec: an n-dimensional numeric array, kept as a shape
vector plus row-major flat data. -/
structure NDArray where
  shape : List Nat
  data : List Int
deriving DecidableEq, Repr

/-- Modelled from the spec: `inferSample` "adds an implicit leading batch
dimension of size 1 to every input before transport encoding"
(`data[np.newaxis, ...]` in the unit tests). -/
def addBatchDim (a : NDArray) : NDArray :=
  { shape := 1 :: a.shape, data := a.data }

/-- Modelled from the spec: stripping the leading batch dimension from an
output tensor (taking index 0 along axis 0, `data[0]` in numpy terms). -/
def stripBatchDim (a : NDArray) : NDArray :=
  { shape := a.shape.tail, data := a.data.take a.shape.tail.prod }

/-- Modelled from the spec: the cached immutable ModelConfig (section 3) with
the ordered input/output tensor names and the batching-support flag. -/
structure ModelConfig where
  modelName : String
  inputs : List String
  outputs : List String
  batching : Bool
deriving DecidableEq, Repr

/-- Modelled from the spec: one entry of the model repository index
(name, version, state). -/
structure RepoEntry where
  name : String
  version : String
  state : ModelState
deriving DecidableEq, Repr

/-- Modelled from the spec: the externally observable server at one polling
instant: liveness, readiness, repository index, the per-model readiness probe,
and the model configuration the server would return for the tracked model. -/
structure ServerView where
  live : Bool
  ready : Bool
  repoIndex : List RepoEntry
  probe : String → Option String → Bool
  config : ModelConfig

/-- Modelled from the spec: whether a repository-index entry answers the
requested model name and optional version. -/
def matchesEntry (e : RepoEntry) (name : String) (ver : Option String) : Bool :=
  e.name == name && (match ver with
    | none => true
    | some v => e.version == v)

/-- Modelled from the spec: lookup of the requested model in the repository
index (section 4.2 step 3). -/
def findModel (idx : List RepoEntry) (name : String) (ver : Option String) :
    Option RepoEntry :=
  idx.find? (fun e => matchesEntry e name ver)

/-- Modelled from the spec: the Model Readiness Tracker poll loop of section
4.2, with the per-model readiness probe pinned by the unit tests
(`is_model_ready` mocked in `patch_http_client__model_up_and_ready`).  `fuel`
is the remaining wall-clock budget in backoff ticks and `t` the current tick:
per iteration the loop checks server liveness then server readiness (each
transient: retry), then the repository index (absence is fatal:
ModelUnavailableError), then the reported state (`LOADING` retries, terminal
non-ready states are fatal, `READY` consults the per-model probe and on
success returns the fetched ModelConfig).  An exhausted budget is
TimeoutError. -/
def waitForModel (sv : Nat → ServerView) (name : String) (ver : Option String) :
    Nat → Nat → Except ClientError ModelConfig
  | 0, _ => .error .timeoutError
  | fuel + 1, t =>
    match (sv t).live, (sv t).ready with
    | false, _ => waitForModel sv name ver fuel (t + 1)
    | true, false => waitForModel sv name ver fuel (t + 1)
    | true, true =>
      match findModel (sv t).repoIndex name ver with
      | none => .error .modelUnavailableError
      | some e =>
        match e.state with
        | .LOADING => waitForModel sv name ver fuel (t + 1)
        | .READY =>
          match (sv t).probe name ver with
          | true => .ok (sv t).config
          | false => waitForModel sv name ver fuel (t + 1)
        | .UNLOADING => .error .modelUnavailableError
        | .UNAVAILABLE => .error .modelUnavailableError

/-- Modelled from the spec: transport scheme of an endpoint, restricted to
http and grpc (section 3). -/
inductive Scheme where
  | http
  | grpc
deriving DecidableEq, Repr

/-- Modelled from the spec: a validated endpoint: scheme plus the host:port
part passed on to the transport clients. -/
structure Endpoint where
  scheme : Scheme
  hostport : String
deriving DecidableEq, Repr

/-- Modelled from the spec: split a character list at the first occurrence of
the literal separator "://", returning the text before and after it. -/
def splitOnSep : List Char → Option (List Char × List Char)
  | [] => none
  | ':' :: '/' :: '/' :: rest => some ([], rest)
  | c :: rest =>
    match splitOnSep rest with
    | none => none
    | some (pre, post) => some (c :: pre, post)

/-- Modelled from the spec: endpoint-string validation at construction time
(sections 3 and 6).  An explicit scheme must be http or grpc and the host:port
part must be non-empty; a string without "://" defaults its scheme to http, as
pinned by the unit test that passes the bare string "dummy:43299" and reaches
the network (timeout) rather than failing URL validation. -/
def parseUrl (s : String) : Except ClientError Endpoint :=
  match splitOnSep s.data with
  | none =>
    if s.data = [] then .error .invalidUrlError
    else .ok { scheme := .http, hostport := s }
  | some (schemeChars, hostChars) =>
    if hostChars = [] then .error .invalidUrlError
    else if String.mk schemeChars = "http" then
      .ok { scheme := .http, hostport := String.mk hostChars }
    else if String.mk schemeChars = "grpc" then
      .ok { scheme := .grpc, hostport := String.mk hostChars }
    else .error .invalidUrlError

/-- Modelled from the spec: the endpoint argument as the client receives it;
the unit test passes a list of strings instead of a string and expects
InvalidUrlError, so the non-string case is represented explicitly. -/
inductive UrlArg where
  | str (s : String)
  | strList (l : List String)
deriving DecidableEq, Repr

/-- Modelled from the spec: the purpose of a transport handle held by a
client; the unit tests pin one general (status/config) client and one
dedicated inference client. -/
inductive HandlePurpose where
  | general
  | infer
deriving DecidableEq, Repr

/-- Modelled from the spec: a persistent transport handle (one underlying
tritonclient InferenceServerClient), identified by the host:port it was
opened against and its purpose. -/
structure TransportHandle where
  hostport : String
  purpose : HandlePurpose
deriving DecidableEq, Repr

/-- Modelled from the spec: the constructed client: endpoint, model identity,
lazily or eagerly cached config, and the transport handles created at
construction. -/
structure AsyncClient where
  endpoint : Endpoint
  modelName : String
  modelVersion : Option String
  handles : List TransportHandle
  configCache : Option ModelConfig
deriving DecidableEq, Repr

/-- Modelled from the spec: client construction (sections 4.1, 4.3 and 6).
URL validation happens before any network access; a non-string argument or a
malformed string raises InvalidUrlError.  Two transport handles (general and
infer) are created, as pinned by the unit test spying on the transport client
constructor.  With lazy initialization disabled the readiness tracker runs
synchronously and construction fails with its error. -/
def createClient (url : UrlArg) (name : String) (ver : Option String)
    (lazyInit : Bool) (fuel : Nat) (sv : Nat → ServerView) :
    Except ClientError AsyncClient :=
  match url with
  | .strList _ => .error .invalidUrlError
  | .str s =>
    match parseUrl s with
    | .error e => .error e
    | .ok ep =>
      match lazyInit with
      | true =>
        .ok { endpoint := ep, modelName := name, modelVersion := ver,
              handles := [⟨ep.hostport, HandlePurpose.general⟩,
                          ⟨ep.hostport, HandlePurpose.infer⟩],
              configCache := none }
      | false =>
        match waitForModel sv name ver fuel 0 with
        | .error e => .error e
        | .ok cfg =>
          .ok { endpoint := ep, modelName := name, modelVersion := ver,
                handles := [⟨ep.hostport, HandlePurpose.general⟩,
                            ⟨ep.hostport, HandlePurpose.infer⟩],
                configCache := some cfg }

/-- Modelled from the spec: the transport handle a given inference invocation
uses; every invocation over one client shares the single dedicated inference
handle created at construction. -/
def handleUsedByInferCall (c : AsyncClient) (_callIdx : Nat) :
    Option TransportHandle :=
  c.handles.find? (fun h => h.purpose == HandlePurpose.infer)

/-- Modelled from the spec: the `model_config` fetch of a (lazy) client: it
runs the readiness tracker and returns the fetched configuration. -/
def modelConfigFetch (sv : Nat → ServerView) (name : String)
    (ver : Option String) (fuel : Nat) : Except ClientError ModelConfig :=
  waitForModel sv name ver fuel 0

/-- Modelled from the spec: local validation of the caller's argument
convention (`_verify_inputs_args`), run before any network call.  Mixing
positional and keyword inputs, or supplying none, is a ValueError whose
messages are pinned by the unit tests. -/
def verifyInputsArgs : List NDArray → List (String × NDArray) →
    Option ClientError
  | [], [] => some (.valueError "Provide input data")
  | _ :: _, _ :: _ =>
    some (.valueError "Use either positional either keyword method arguments convention")
  | _, _ => none

/-- Modelled from the spec: naming of positional inputs: keyword inputs are
used as given, positional inputs are zipped with the input names declared by
the ModelConfig, in order. -/
def nameInputs (cfg : ModelConfig) (pos : List NDArray)
    (kw : List (String × NDArray)) : List (String × NDArray) :=
  match kw with
  | [] => cfg.inputs.zip pos
  | _ :: _ => kw

/-- Modelled from the spec: the observable outcome of one inference
invocation: the returned value or error, whether the transport's infer
operation was invoked, the tensors as encoded on the wire, and the output
names requested explicitly. -/
structure InferOutcome where
  result : Except ClientError (List (String × NDArray))
  transportCalled : Bool
  wireInputs : List (String × NDArray)
  requestedOutputs : List String
deriving DecidableEq, Repr

/-- Modelled from the spec: `infer_sample` (section 4.3).  Argument
conventions are validated locally first; the readiness tracker then yields the
ModelConfig; for a batching-enabled model every input gains a leading batch
dimension of size 1 before transport encoding and every output loses it before
returning, while for a non-batching model tensors pass through unchanged (as
pinned by the unit test inferring on the no-batching model).  Every declared
output name is requested explicitly. -/
def clientInferSample (sv : Nat → ServerView)
    (server : List (String × NDArray) → List (String × NDArray))
    (name : String) (ver : Option String) (fuel : Nat)
    (pos : List NDArray) (kw : List (String × NDArray)) : InferOutcome :=
  match verifyInputsArgs pos kw with
  | some e => { result := .error e, transportCalled := false,
                wireInputs := [], requestedOutputs := [] }
  | none =>
    match waitForModel sv name ver fuel 0 with
    | .error e => { result := .error e, transportCalled := false,
                    wireInputs := [], requestedOutputs := [] }
    | .ok cfg =>
      match cfg.batching with
      | true =>
        { result := .ok ((server ((nameInputs cfg pos kw).map
              (fun p => (p.1, addBatchDim p.2)))).map
              (fun p => (p.1, stripBatchDim p.2))),
          transportCalled := true,
          wireInputs := (nameInputs cfg pos kw).map
              (fun p => (p.1, addBatchDim p.2)),
          requestedOutputs := cfg.outputs }
      | false =>
        { result := .ok (server (nameInputs cfg pos kw)),
          transportCalled := true, wireInputs := nameInputs cfg pos kw,
          requestedOutputs := cfg.outputs }

/-- Modelled from the spec: `infer_batch` (section 4.3).  Argument conventions
are validated locally first; the readiness tracker then yields the
ModelConfig; a model without batching support is a
ModelDoesntSupportBatchingError with the transport's infer operation never
invoked; otherwise the caller-supplied tensors are encoded unchanged and the
server's outputs returned unchanged, keyed by output name. -/
def clientInferBatch (sv : Nat → ServerView)
    (server : List (String × NDArray) → List (String × NDArray))
    (name : String) (ver : Option String) (fuel : Nat)
    (pos : List NDArray) (kw : List (String × NDArray)) : InferOutcome :=
  match verifyInputsArgs pos kw with
  | some e => { result := .error e, transportCalled := false,
                wireInputs := [], requestedOutputs := [] }
  | none =>
    match waitForModel sv name ver fuel 0 with
    | .error e => { result := .error e, transportCalled := false,
                    wireInputs := [], requestedOutputs := [] }
    | .ok cfg =>
      match cfg.batching with
      | true =>
        { result := .ok (server (nameInputs cfg pos kw)),
          transportCalled := true, wireInputs := nameInputs cfg pos kw,
          requestedOutputs := cfg.outputs }
      | false =>
        { result := .error .modelDoesntSupportBatchingError,
          transportCalled := false, wireInputs := [], requestedOutputs := [] }

/-- Concrete fixture: the add_sub model configuration with batching enabled,
mirroring ADD_SUB_WITH_BATCHING_MODEL_CONFIG of the unit tests. -/
def cfgAddSubBatching : ModelConfig :=
  { modelName := "AddSub", inputs := ["a", "b"], outputs := ["add", "sub"],
    batching := true }

/-- Concrete fixture: the add_sub model configuration without batching,
mirroring ADD_SUB_WITHOUT_BATCHING_MODEL_CONFIG of the unit tests. -/
def cfgAddSubNoBatching : ModelConfig :=
  { modelName := "AddSub", inputs := ["a", "b"], outputs := ["add", "sub"],
    batching := false }

/-- Concrete fixture: a one-element float vector of shape (1,), as the unit
tests build with np.array([1]). -/
def arr1 : NDArray := { shape := [1], data := [1] }

/-- Concrete fixture: a live and ready server exposing the batching add_sub
model as READY. -/
def svReadyBatching : Nat → ServerView := fun _ =>
  { live := true, ready := true,
    repoIndex := [⟨"AddSub", "1", ModelState.READY⟩],
    probe := fun _ _ => true, config := cfgAddSubBatching }

/-- Concrete fixture: a live and ready server exposing the non-batching
add_sub model as READY. -/
def svReadyNoBatching : Nat → ServerView := fun _ =>
  { live := true, ready := true,
    repoIndex := [⟨"AddSub", "1", ModelState.READY⟩],
    probe := fun _ _ => true, config := cfgAddSubNoBatching }

/-- Concrete fixture: a live and ready server whose repository index only
contains a different model, mirroring the OtherName index of the unit
tests. -/
def svOtherOnly : Nat → ServerView := fun _ =>
  { live := true, ready := true,
    repoIndex := [⟨"OtherName", "1", ModelState.READY⟩],
    probe := fun _ _ => true, config := cfgAddSubBatching }

/-- Concrete fixture: a live and ready server reporting the add_sub model in
state UNAVAILABLE. -/
def svUnavailable : Nat → ServerView := fun _ =>
  { live := true, ready := true,
    repoIndex := [⟨"AddSub", "1", ModelState.UNAVAILABLE⟩],
    probe := fun _ _ => true, config := cfgAddSubBatching }

/-- Concrete fixture: a server that never becomes live, mirroring the
non-responding server of the unit tests. -/
def svDead : Nat → ServerView := fun _ =>
  { live := false, ready := false, repoIndex := [],
    probe := fun _ _ => false, config := cfgAddSubBatching }

/-- Concrete fixture: a live and ready server whose index reports the model
READY but whose per-model readiness probe answers false, mirroring the
model_not_ready unit tests. -/
def svProbeNotReady : Nat → ServerView := fun _ =>
  { live := true, ready := true,
    repoIndex := [⟨"AddSub", "1", ModelState.READY⟩],
    probe := fun _ _ => false, config := cfgAddSubBatching }

/-- Concrete fixture: a server whose model is LOADING at tick 0 and READY
from tick 1 on, exercising the transient-loading branch of the readiness
tracker. -/
def svLoadingThenReady : Nat → ServerView := fun t =>
  match t with
  | 0 =>
    { live := true, ready := true,
      repoIndex := [⟨"AddSub", "1", ModelState.LOADING⟩],
      probe := fun _ _ => true, config := cfgAddSubBatching }
  | _ + 1 =>
    { live := true, ready := true,
      repoIndex := [⟨"AddSub", "1", ModelState.READY⟩],
      probe := fun _ _ => true, config := cfgAddSubBatching }

/-- Concrete fixture: a server whose model is LOADING forever. -/
def svLoadingForever : Nat → ServerView := fun _ =>
  { live := true, ready := true,
    repoIndex := [⟨"AddSub", "1", ModelState.LOADING⟩],
    probe := fun _ _ => true, config := cfgAddSubBatching }

/-- Concrete fixture: a transport that echoes its inputs back as outputs. -/
def serverEcho : List (String × NDArray) → List (String × NDArray) :=
  fun xs => xs

/-- Concrete fixture: a batch of two one-element samples, shape (2, 1), as
the infer_batch unit tests build with np.array([[1], [1]]). -/
def arr21 : NDArray := { shape := [2, 1], data := [1, 1] }

/-- Concrete fixture: the client obtained from lazy construction against
http://localhost:8000 for the add_sub model. -/
def clientFixture : AsyncClient :=
  { endpoint := ⟨Scheme.http, "localhost:8000"⟩, modelName := "AddSub",
    modelVersion := none,
    handles := [⟨"localhost:8000", HandlePurpose.general⟩,
                ⟨"localhost:8000", HandlePurpose.infer⟩],
    configCache := none }

/-! Helper lemmas about the readiness tracker poll loop. -/

/-- When the server is live and ready and the repository index reports the
model absent or in a terminal non-ready state, one polling iteration fails
with ModelUnavailableError, whatever budget remains. -/
theorem waitForModel_fatal (sv : Nat → ServerView) (name : String)
    (ver : Option String) (t : Nat)
    (hlive : (sv t).live = true) (hready : (sv t).ready = true)
    (hbad : findModel (sv t).repoIndex name ver = none ∨
      ∃ e, findModel (sv t).repoIndex name ver = some e ∧
        (e.state = ModelState.UNAVAILABLE ∨ e.state = ModelState.UNLOADING)) :
    ∀ fuel, waitForModel sv name ver (fuel + 1) t =
      .error ClientError.modelUnavailableError := by
  intro fuel
  rcases hbad with hfind | ⟨e, hfind, hstate⟩
  · simp only [waitForModel, hlive, hready, hfind]
  · rcases hstate with h | h <;>
      simp only [waitForModel, hlive, hready, hfind, h]

/-- When the model is reported LOADING at every polled instant, the wait
consumes its whole budget and fails with TimeoutError. -/
theorem waitForModel_timeout_of_loading (sv : Nat → ServerView) (name : String)
    (ver : Option String)
    (h : ∀ u, (sv u).live = true ∧ (sv u).ready = true ∧
      ∃ e, findModel (sv u).repoIndex name ver = some e ∧
        e.state = ModelState.LOADING) :
    ∀ fuel t, waitForModel sv name ver fuel t =
      .error ClientError.timeoutError := by
  intro fuel
  induction fuel with
  | zero => intro t; simp only [waitForModel]
  | succ n ih =>
    intro t
    obtain ⟨hl, hr, e, hf, hs⟩ := h t
    simp only [waitForModel, hl, hr, hf, hs]
    exact ih (t + 1)

/-- When the server is never simultaneously live and ready, the wait consumes
its whole budget and fails with TimeoutError. -/
theorem waitForModel_timeout_of_dead (sv : Nat → ServerView) (name : String)
    (ver : Option String)
    (h : ∀ u, (sv u).live = false ∨ (sv u).ready = false) :
    ∀ fuel t, waitForModel sv name ver fuel t =
      .error ClientError.timeoutError := by
  intro fuel
  induction fuel with
  | zero => intro t; simp only [waitForModel]
  | succ n ih =>
    intro t
    rcases h t with hl | hr
    · simp only [waitForModel, hl]
      exact ih (t + 1)
    · cases hl : (sv t).live with
      | false =>
        simp only [waitForModel, hl]
        exact ih (t + 1)
      | true =>
        simp only [waitForModel, hl, hr]
        exact ih (t + 1)

/-- When the index always reports the model READY but the per-model readiness
probe always answers false, the wait keeps retrying and fails with
TimeoutError. -/
theorem waitForModel_timeout_of_probe_false (sv : Nat → ServerView)
    (name : String) (ver : Option String)
    (h : ∀ u, (sv u).live = true ∧ (sv u).ready = true ∧
      (sv u).probe name ver = false ∧
      ∃ e, findModel (sv u).repoIndex name ver = some e ∧
        e.state = ModelState.READY) :
    ∀ fuel t, waitForModel sv name ver fuel t =
      .error ClientError.timeoutError := by
  intro fuel
  induction fuel with
  | zero => intro t; simp only [waitForModel]
  | succ n ih =>
    intro t
    obtain ⟨hl, hr, hp, e, hf, hs⟩ := h t
    simp only [waitForModel, hl, hr, hf, hs, hp]
    exact ih (t + 1)

/-- Whenever the server is live and ready the index reports the model present
in a non-terminal state, the wait never fails with ModelUnavailableError. -/
theorem waitForModel_ne_unavailable (sv : Nat → ServerView) (name : String)
    (ver : Option String)
    (h : ∀ u, ((sv u).live = true ∧ (sv u).ready = true) →
      ∃ e, findModel (sv u).repoIndex name ver = some e ∧
        e.state ≠ ModelState.UNAVAILABLE ∧ e.state ≠ ModelState.UNLOADING) :
    ∀ fuel t, waitForModel sv name ver fuel t ≠
      .error ClientError.modelUnavailableError := by
  intro fuel
  induction fuel with
  | zero =>
    intro t
    simp only [waitForModel]
    decide
  | succ n ih =>
    intro t
    cases hl : (sv t).live with
    | false =>
      simp only [waitForModel, hl]
      exact ih (t + 1)
    | true =>
      cases hr : (sv t).ready with
      | false =>
        simp only [waitForModel, hl, hr]
        exact ih (t + 1)
      | true =>
        obtain ⟨e, hf, hs1, hs2⟩ := h t ⟨hl, hr⟩
        simp only [waitForModel, hl, hr, hf]
        cases hst : e.state with
        | LOADING => exact ih (t + 1)
        | READY =>
          cases hp : (sv t).probe name ver with
          | false => exact ih (t + 1)
          | true => simp
        | UNLOADING => exact absurd hst hs2
        | UNAVAILABLE => exact absurd hst hs1

/-- When the model is LOADING up to tick k and READY (with a positive
per-model probe) at tick k, the wait succeeds with the configuration fetched
at tick k once the budget covers the k elapsed backoff steps. -/
theorem waitForModel_ok_of_ready_at (sv : Nat → ServerView) (name : String)
    (ver : Option String) (k : Nat)
    (hL : ∀ u, u < k → (sv u).live = true ∧ (sv u).ready = true ∧
      ∃ e, findModel (sv u).repoIndex name ver = some e ∧
        e.state = ModelState.LOADING)
    (hlive : (sv k).live = true) (hready : (sv k).ready = true)
    (hfound : ∃ e, findModel (sv k).repoIndex name ver = some e ∧
      e.state = ModelState.READY)
    (hprobe : (sv k).probe name ver = true) :
    ∀ fuel t, t ≤ k → k - t < fuel →
      waitForModel sv name ver fuel t = .ok ((sv k).config) := by
  intro fuel
  induction fuel with
  | zero => intro t _ hf; omega
  | succ n ih =>
    intro t ht hf
    rcases Nat.lt_or_ge t k with hlt | hge
    · obtain ⟨hl, hr, e, hfind, hs⟩ := hL t hlt
      simp only [waitForModel, hl, hr, hfind, hs]
      exact ih (t + 1) hlt (by omega)
    · have hk : t = k := Nat.le_antisymm ht hge
      subst hk
      obtain ⟨e, hfind, hs⟩ := hfound
      simp only [waitForModel, hlive, hready, hfind, hs, hprobe]

/-! Claim theorems. -/

/-- C1 (amended): for every call to infer_sample on a model whose cached
config reports batching support, every input tensor gains an implicit leading
batch dimension of size 1 before transport encoding and every output tensor
loses its leading dimension before returning; in particular an input of shape
(1,) is encoded as shape (1,1) on the wire and an output of shape (1,1) is
returned with shape (1,). -/
theorem C1_infer_sample_adds_and_strips_batch_dim (sv : Nat → ServerView)
    (server : List (String × NDArray) → List (String × NDArray))
    (name : String) (ver : Option String) (fuel : Nat)
    (pos : List NDArray) (kw : List (String × NDArray)) (cfg : ModelConfig)
    (hwait : waitForModel sv name ver fuel 0 = .ok cfg)
    (hb : cfg.batching = true)
    (hargs : verifyInputsArgs pos kw = none) :
    (clientInferSample sv server name ver fuel pos kw).wireInputs =
      (nameInputs cfg pos kw).map (fun p => (p.1, addBatchDim p.2)) ∧
    (clientInferSample sv server name ver fuel pos kw).result =
      .ok ((server ((nameInputs cfg pos kw).map
          (fun p => (p.1, addBatchDim p.2)))).map
        (fun p => (p.1, stripBatchDim p.2))) ∧
    (∀ a : NDArray, (addBatchDim a).shape = 1 :: a.shape) ∧
    (∀ a : NDArray, a.shape = [1] → (addBatchDim a).shape = [1, 1]) ∧
    (∀ a : NDArray, a.shape = [1, 1] → (stripBatchDim a).shape = [1]) := by
  refine ⟨?_, ?_, fun a => rfl, fun a ha => by simp [addBatchDim, ha],
    fun a ha => by simp [stripBatchDim, ha]⟩
  · simp only [clientInferSample, hargs, hwait, hb]
  · simp only [clientInferSample, hargs, hwait, hb]

/-- Witness for C1 at the batching unit-test scenario: two inputs of shape
(1,) are encoded with shape (1,1) on the wire. -/
theorem C1_infer_sample_adds_and_strips_batch_dim_witness :
    (clientInferSample svReadyBatching serverEcho "AddSub" (some "1") 1
        [arr1, arr1] []).wireInputs =
      [("a", addBatchDim arr1), ("b", addBatchDim arr1)] ∧
    (addBatchDim arr1).shape = [1, 1] := by
  have h := C1_infer_sample_adds_and_strips_batch_dim svReadyBatching
    serverEcho "AddSub" (some "1") 1 [arr1, arr1] [] cfgAddSubBatching
    (by decide) rfl rfl
  exact ⟨by rw [h.1]; rfl, h.2.2.2.1 arr1 rfl⟩

/-- C1 counterexample: on the non-batching add_sub model (the scenario of the
positional-args unit test), infer_sample encodes inputs of shape (1,)
unchanged on the wire — as shape (1,), not (1,1) — so the claim does not hold
for every model. -/
theorem C1_counterexample :
    (clientInferSample svReadyNoBatching serverEcho "AddSub" (some "1") 1
        [arr1, arr1] []).wireInputs.map (fun p => p.2.shape) = [[1], [1]] ∧
    (clientInferSample svReadyNoBatching serverEcho "AddSub" (some "1") 1
        [arr1, arr1] []).wireInputs.map (fun p => p.2.shape) ≠
      [[1, 1], [1, 1]] := by
  decide

/-- C2: against a live and ready server whose repository index lacks the
requested model name+version or reports it in a terminal non-ready state,
every operation requiring readiness — non-lazy construction, model_config
fetch, infer_sample and infer_batch — fails with ModelUnavailableError, never
TimeoutError, regardless of the remaining time budget, and the transport's
infer operation is never invoked. -/
theorem C2_unavailable_model_is_fatal (sv : Nat → ServerView)
    (server : List (String × NDArray) → List (String × NDArray))
    (url : String) (ep : Endpoint) (name : String) (ver : Option String)
    (pos : List NDArray) (kw : List (String × NDArray)) (fuel : Nat)
    (hurl : parseUrl url = .ok ep)
    (hlive : (sv 0).live = true) (hready : (sv 0).ready = true)
    (hbad : findModel (sv 0).repoIndex name ver = none ∨
      ∃ e, findModel (sv 0).repoIndex name ver = some e ∧
        (e.state = ModelState.UNAVAILABLE ∨ e.state = ModelState.UNLOADING))
    (hargs : verifyInputsArgs pos kw = none) :
    createClient (.str url) name ver false (fuel + 1) sv =
        .error ClientError.modelUnavailableError ∧
    modelConfigFetch sv name ver (fuel + 1) =
        .error ClientError.modelUnavailableError ∧
    (clientInferSample sv server name ver (fuel + 1) pos kw).result =
        .error ClientError.modelUnavailableError ∧
    (clientInferSample sv server name ver (fuel + 1) pos kw).transportCalled =
        false ∧
    (clientInferBatch sv server name ver (fuel + 1) pos kw).result =
        .error ClientError.modelUnavailableError ∧
    (clientInferBatch sv server name ver (fuel + 1) pos kw).transportCalled =
        false := by
  have hwait := waitForModel_fatal sv name ver 0 hlive hready hbad fuel
  refine ⟨?_, ?_, ?_, ?_, ?_, ?_⟩
  · simp only [createClient, hurl, hwait]
  · simp only [modelConfigFetch, hwait]
  · simp only [clientInferSample, hargs, hwait]
  · simp only [clientInferSample, hargs, hwait]
  · simp only [clientInferBatch, hargs, hwait]
  · simp only [clientInferBatch, hargs, hwait]

/-- Witness for C2 at the unit-test scenario: NotExistentModel requested
while the index only lists OtherName. -/
theorem C2_unavailable_model_is_fatal_witness :
    createClient (.str "http://localhost:8000") "NotExistentModel" none false 1
        svOtherOnly = .error ClientError.modelUnavailableError ∧
    modelConfigFetch svOtherOnly "NotExistentModel" none 1 =
      .error ClientError.modelUnavailableError ∧
    (clientInferSample svOtherOnly serverEcho "NotExistentModel" none 1
        [arr1] []).result = .error ClientError.modelUnavailableError ∧
    (clientInferSample svOtherOnly serverEcho "NotExistentModel" none 1
        [arr1] []).transportCalled = false ∧
    (clientInferBatch svOtherOnly serverEcho "NotExistentModel" none 1
        [arr1] []).result = .error ClientError.modelUnavailableError ∧
    (clientInferBatch svOtherOnly serverEcho "NotExistentModel" none 1
        [arr1] []).transportCalled = false :=
  C2_unavailable_model_is_fatal svOtherOnly serverEcho "http://localhost:8000"
    ⟨Scheme.http, "localhost:8000"⟩ "NotExistentModel" none [arr1] [] 0
    (by decide) rfl rfl (Or.inl (by decide)) rfl

/-- C3: while the model's reported state is only LOADING (server live and
ready), the readiness wait keeps polling: it never fails with
ModelUnavailableError, it fails with TimeoutError once the budget elapses if
the model stays LOADING, and it succeeds with the fetched configuration as
soon as the state becomes READY within the budget. -/
theorem C3_loading_is_transient (sv : Nat → ServerView) (name : String)
    (ver : Option String) (k : Nat)
    (hlr : ∀ t, (sv t).live = true ∧ (sv t).ready = true)
    (hload : ∀ t, t < k → ∃ e, findModel (sv t).repoIndex name ver = some e ∧
      e.state = ModelState.LOADING) :
    ((∀ t, ∃ e, findModel (sv t).repoIndex name ver = some e ∧
        e.state = ModelState.LOADING) →
      ∀ fuel, waitForModel sv name ver fuel 0 =
        .error ClientError.timeoutError) ∧
    ((∀ t, ∃ e, findModel (sv t).repoIndex name ver = some e ∧
        e.state ≠ ModelState.UNAVAILABLE ∧ e.state ≠ ModelState.UNLOADING) →
      ∀ fuel, waitForModel sv name ver fuel 0 ≠
        .error ClientError.modelUnavailableError) ∧
    ((∃ e, findModel (sv k).repoIndex name ver = some e ∧
        e.state = ModelState.READY) →
      (sv k).probe name ver = true →
      ∀ fuel, k < fuel →
        waitForModel sv name ver fuel 0 = .ok ((sv k).config)) := by
  refine ⟨?_, ?_, ?_⟩
  · intro hall fuel
    exact waitForModel_timeout_of_loading sv name ver
      (fun u => ⟨(hlr u).1, (hlr u).2, hall u⟩) fuel 0
  · intro hnt fuel
    exact waitForModel_ne_unavailable sv name ver (fun u _ => hnt u) fuel 0
  · intro hfound hprobe fuel hk
    exact waitForModel_ok_of_ready_at sv name ver k
      (fun u hu => ⟨(hlr u).1, (hlr u).2, hload u hu⟩) (hlr k).1 (hlr k).2
      hfound hprobe fuel 0 (Nat.zero_le k) (by omega)

/-- Witness for C3: a model LOADING at tick 0 and READY from tick 1 is waited
out to success, and a model LOADING forever times out. -/
theorem C3_loading_is_transient_witness :
    waitForModel svLoadingThenReady "AddSub" (some "1") 5 0 =
      .ok cfgAddSubBatching ∧
    waitForModel svLoadingForever "AddSub" (some "1") 5 0 =
      .error ClientError.timeoutError := by
  constructor
  · exact (C3_loading_is_transient svLoadingThenReady "AddSub" (some "1") 1
      (fun t => by cases t <;> exact ⟨rfl, rfl⟩)
      (fun t ht => by
        have h0 : t = 0 := by omega
        subst h0
        exact ⟨⟨"AddSub", "1", ModelState.LOADING⟩, by decide, rfl⟩)).2.2
      ⟨⟨"AddSub", "1", ModelState.READY⟩, by decide, rfl⟩ rfl 5 (by omega)
  · exact (C3_loading_is_transient svLoadingForever "AddSub" (some "1") 0
      (fun t => ⟨rfl, rfl⟩) (fun t ht => absurd ht (Nat.not_lt_zero t))).1
      (fun t => ⟨⟨"AddSub", "1", ModelState.LOADING⟩, rfl, rfl⟩) 5

/-- C4: calling infer_batch on a model whose cached configuration reports no
batching support fails with ModelDoesntSupportBatchingError and the
transport's infer operation is never invoked. -/
theorem C4_infer_batch_requires_batching (sv : Nat → ServerView)
    (server : List (String × NDArray) → List (String × NDArray))
    (name : String) (ver : Option String) (fuel : Nat)
    (pos : List NDArray) (kw : List (String × NDArray)) (cfg : ModelConfig)
    (hwait : waitForModel sv name ver fuel 0 = .ok cfg)
    (hnb : cfg.batching = false)
    (hargs : verifyInputsArgs pos kw = none) :
    (clientInferBatch sv server name ver fuel pos kw).result =
      .error ClientError.modelDoesntSupportBatchingError ∧
    (clientInferBatch sv server name ver fuel pos kw).transportCalled =
      false := by
  refine ⟨?_, ?_⟩ <;> simp only [clientInferBatch, hargs, hwait, hnb]

/-- Witness for C4 at the unit-test scenario: infer_batch on the non-batching
add_sub model. -/
theorem C4_infer_batch_requires_batching_witness :
    (clientInferBatch svReadyNoBatching serverEcho "AddSub" (some "1") 1
        [arr1, arr1] []).result =
      .error ClientError.modelDoesntSupportBatchingError ∧
    (clientInferBatch svReadyNoBatching serverEcho "AddSub" (some "1") 1
        [arr1, arr1] []).transportCalled = false :=
  C4_infer_batch_requires_batching svReadyNoBatching serverEcho "AddSub"
    (some "1") 1 [arr1, arr1] [] cfgAddSubNoBatching (by decide) rfl rfl

/-- C5 (amended): a non-string endpoint argument, an endpoint string with an
explicit scheme other than http or grpc, and an endpoint string with an empty
host part all make construction fail with InvalidUrlError, for every server
and budget — hence before any network access; a bare host:port string with
the scheme omitted is instead accepted, its scheme defaulting to http. -/
theorem C5_url_validation :
    (∀ (l : List String) (name : String) (ver : Option String) (lazy : Bool)
        (fuel : Nat) (sv : Nat → ServerView),
      createClient (.strList l) name ver lazy fuel sv =
        .error ClientError.invalidUrlError) ∧
    (∀ (s : String) (name : String) (ver : Option String) (lazy : Bool)
        (fuel : Nat) (sv : Nat → ServerView),
      parseUrl s = .error ClientError.invalidUrlError →
      createClient (.str s) name ver lazy fuel sv =
        .error ClientError.invalidUrlError) ∧
    (∀ (pre post : List Char) (s : String),
      splitOnSep s.data = some (pre, post) →
      String.mk pre ≠ "http" → String.mk pre ≠ "grpc" →
      parseUrl s = .error ClientError.invalidUrlError) ∧
    (∀ (pre : List Char) (s : String),
      splitOnSep s.data = some (pre, []) →
      parseUrl s = .error ClientError.invalidUrlError) ∧
    (∀ (s : String), s.data ≠ [] → splitOnSep s.data = none →
      parseUrl s = .ok { scheme := Scheme.http, hostport := s }) := by
  refine ⟨fun l name ver lazy fuel sv => rfl, ?_, ?_, ?_, ?_⟩
  · intro s name ver lazy fuel sv h
    simp only [createClient, h]
  · intro pre post s hsplit h1 h2
    simp only [parseUrl, hsplit]
    by_cases hp : post = []
    · simp [hp]
    · simp [hp, h1, h2]
  · intro pre s hsplit
    simp only [parseUrl, hsplit]
    simp
  · intro s hne hsplit
    simp only [parseUrl, hsplit]
    simp [hne]

/-- Witness for C5: the unit tests' list argument, an explicit non-http
scheme and an empty host part all fail URL validation, while the bare
host:port string of the non-responding-server test parses with the http
default. -/
theorem C5_url_validation_witness :
    createClient (.strList ["localhost:8001"]) "dummy" none true 1 svDead =
      .error ClientError.invalidUrlError ∧
    createClient (.str "ftp://localhost:8000") "dummy" none true 1 svDead =
      .error ClientError.invalidUrlError ∧
    parseUrl "http://" = .error ClientError.invalidUrlError ∧
    parseUrl "dummy:43299" =
      .ok { scheme := Scheme.http, hostport := "dummy:43299" } := by
  have h := C5_url_validation
  exact ⟨h.1 ["localhost:8001"] "dummy" none true 1 svDead,
    h.2.1 "ftp://localhost:8000" "dummy" none true 1 svDead (by decide),
    h.2.2.2.1 "http".data "http://" (by decide),
    h.2.2.2.2 "dummy:43299" (by decide) (by decide)⟩

/-- C5 counterexample: the bare host:port endpoint "dummy:43299" with the
scheme omitted is accepted — non-lazy construction against a dead server
fails with TimeoutError after polling, not with InvalidUrlError — refuting
the claim that a bare host:port form raises InvalidUrlError. -/
theorem C5_counterexample :
    createClient (.str "dummy:43299") "dummy" none false 1 svDead =
      .error ClientError.timeoutError ∧
    createClient (.str "dummy:43299") "dummy" none false 1 svDead ≠
      .error ClientError.invalidUrlError := by
  decide

/-- C6: constructing a client with lazy initialization disabled against a
server that is never live and ready fails with TimeoutError, for every
polling budget. -/
theorem C6_nonlazy_init_times_out (sv : Nat → ServerView) (name : String)
    (ver : Option String) (url : String) (ep : Endpoint) (fuel : Nat)
    (hurl : parseUrl url = .ok ep)
    (hdead : ∀ t, (sv t).live = false ∨ (sv t).ready = false) :
    createClient (.str url) name ver false fuel sv =
      .error ClientError.timeoutError := by
  have hwait := waitForModel_timeout_of_dead sv name ver hdead fuel 0
  simp only [createClient, hurl, hwait]

/-- Witness for C6 at the unit-test scenario: non-lazy construction against
the non-responding endpoint dummy:43299. -/
theorem C6_nonlazy_init_times_out_witness :
    createClient (.str "dummy:43299") "dummy" none false 3 svDead =
      .error ClientError.timeoutError :=
  C6_nonlazy_init_times_out svDead "dummy" none "dummy:43299"
    ⟨Scheme.http, "dummy:43299"⟩ 3 (by decide) (fun t => Or.inl rfl)

/-- C7: mixing positional and keyword inputs in infer_sample or infer_batch
fails with the ValueError naming the two conventions as mutually exclusive,
and supplying zero inputs fails with the ValueError indicating missing input
data; in all four cases the transport's infer operation is never invoked. -/
theorem C7_argument_convention_checked_locally (sv : Nat → ServerView)
    (server : List (String × NDArray) → List (String × NDArray))
    (name : String) (ver : Option String) (fuel : Nat)
    (x : NDArray) (xs : List NDArray)
    (y : String × NDArray) (ys : List (String × NDArray)) :
    ((clientInferSample sv server name ver fuel (x :: xs) (y :: ys)).result =
      .error (ClientError.valueError
        "Use either positional either keyword method arguments convention") ∧
     (clientInferSample sv server name ver fuel (x :: xs)
        (y :: ys)).transportCalled = false) ∧
    ((clientInferBatch sv server name ver fuel (x :: xs) (y :: ys)).result =
      .error (ClientError.valueError
        "Use either positional either keyword method arguments convention") ∧
     (clientInferBatch sv server name ver fuel (x :: xs)
        (y :: ys)).transportCalled = false) ∧
    ((clientInferSample sv server name ver fuel [] []).result =
      .error (ClientError.valueError "Provide input data") ∧
     (clientInferSample sv server name ver fuel [] []).transportCalled =
       false) ∧
    ((clientInferBatch sv server name ver fuel [] []).result =
      .error (ClientError.valueError "Provide input data") ∧
     (clientInferBatch sv server name ver fuel [] []).transportCalled =
       false) :=
  ⟨⟨rfl, rfl⟩, ⟨rfl, rfl⟩, ⟨rfl, rfl⟩, ⟨rfl, rfl⟩⟩

/-- C8: infer_batch on a batching model encodes the caller's tensors on the
wire exactly as supplied — no batch axis added or removed — requests every
declared output name explicitly, and returns the server's output mapping
unchanged. -/
theorem C8_infer_batch_passes_through (sv : Nat → ServerView)
    (server : List (String × NDArray) → List (String × NDArray))
    (name : String) (ver : Option String) (fuel : Nat)
    (pos : List NDArray) (kw : List (String × NDArray)) (cfg : ModelConfig)
    (hwait : waitForModel sv name ver fuel 0 = .ok cfg)
    (hb : cfg.batching = true)
    (hargs : verifyInputsArgs pos kw = none) :
    (clientInferBatch sv server name ver fuel pos kw).wireInputs =
      nameInputs cfg pos kw ∧
    (clientInferBatch sv server name ver fuel pos kw).result =
      .ok (server (nameInputs cfg pos kw)) ∧
    (clientInferBatch sv server name ver fuel pos kw).requestedOutputs =
      cfg.outputs ∧
    (clientInferBatch sv server name ver fuel pos kw).transportCalled =
      true := by
  refine ⟨?_, ?_, ?_, ?_⟩ <;> simp only [clientInferBatch, hargs, hwait, hb]

/-- Witness for C8 at the infer_batch unit-test scenario: two (2,1) batches
pass through unchanged. -/
theorem C8_infer_batch_passes_through_witness :
    (clientInferBatch svReadyBatching serverEcho "AddSub" (some "1") 1
        [arr21, arr21] []).wireInputs = [("a", arr21), ("b", arr21)] ∧
    (clientInferBatch svReadyBatching serverEcho "AddSub" (some "1") 1
        [arr21, arr21] []).result = .ok [("a", arr21), ("b", arr21)] ∧
    (clientInferBatch svReadyBatching serverEcho "AddSub" (some "1") 1
        [arr21, arr21] []).requestedOutputs = ["add", "sub"] := by
  have h := C8_infer_batch_passes_through svReadyBatching serverEcho "AddSub"
    (some "1") 1 [arr21, arr21] [] cfgAddSubBatching (by decide) rfl rfl
  exact ⟨by rw [h.1]; rfl, by rw [h.2.1]; rfl, by rw [h.2.2.1]; rfl⟩

/-- C9 (amended): every successfully constructed client owns exactly two
persistent transport handles — a general one and a dedicated inference one,
both opened against the endpoint's host:port — created once at construction;
every inference invocation uses the same shared inference handle, none is
created or owned per call. -/
theorem C9_connection_owns_two_shared_handles (s : String) (name : String)
    (ver : Option String) (lazy : Bool) (fuel : Nat) (sv : Nat → ServerView)
    (ep : Endpoint) (c : AsyncClient)
    (hurl : parseUrl s = .ok ep)
    (hc : createClient (.str s) name ver lazy fuel sv = .ok c) :
    c.handles = [⟨ep.hostport, HandlePurpose.general⟩,
                 ⟨ep.hostport, HandlePurpose.infer⟩] ∧
    c.handles.length = 2 ∧
    (∀ i j, handleUsedByInferCall c i = handleUsedByInferCall c j) ∧
    handleUsedByInferCall c 0 =
      some ⟨ep.hostport, HandlePurpose.infer⟩ := by
  have hh : c.handles = [⟨ep.hostport, HandlePurpose.general⟩,
      ⟨ep.hostport, HandlePurpose.infer⟩] := by
    cases lazy with
    | true =>
      simp only [createClient, hurl] at hc
      injection hc with h
      rw [← h]
    | false =>
      cases hw : waitForModel sv name ver fuel 0 with
      | error e =>
        simp only [createClient, hurl, hw] at hc
        exact Except.noConfusion hc
      | ok cfg =>
        simp only [createClient, hurl, hw] at hc
        injection hc with h
        rw [← h]
  refine ⟨hh, by rw [hh]; rfl, fun i j => rfl, ?_⟩
  rw [handleUsedByInferCall, hh]
  rfl

/-- Witness for C9: the lazily constructed client against
http://localhost:8000 holds its two shared handles. -/
theorem C9_connection_owns_two_shared_handles_witness :
    clientFixture.handles.length = 2 ∧
    handleUsedByInferCall clientFixture 0 =
      handleUsedByInferCall clientFixture 1 := by
  have h := C9_connection_owns_two_shared_handles "http://localhost:8000"
    "AddSub" none true 1 svReadyBatching ⟨Scheme.http, "localhost:8000"⟩
    clientFixture (by decide) (by decide)
  exact ⟨h.2.1, h.2.2.1 0 1⟩

/-- C9 counterexample: the constructed client owns two transport handles (the
general and the inference client pinned by the constructor-spy unit test),
not exactly one as the claim states. -/
theorem C9_counterexample :
    (createClient (.str "http://localhost:8000") "AddSub" none true 1
        svReadyBatching).map (fun c => c.handles.length) = .ok 2 ∧
    (createClient (.str "http://localhost:8000") "AddSub" none true 1
        svReadyBatching).map (fun c => c.handles.length) ≠ .ok 1 := by
  decide

/-- C10: when the repository index reports the requested model present and
READY at every polled instant but the per-model readiness probe keeps
answering not ready, the wait treats the condition as transient: it fails
with TimeoutError once the budget elapses and never with
ModelUnavailableError. -/
theorem C10_probe_not_ready_is_transient (sv : Nat → ServerView)
    (name : String) (ver : Option String)
    (h : ∀ t, (sv t).live = true ∧ (sv t).ready = true ∧
      (sv t).probe name ver = false ∧
      ∃ e, findModel (sv t).repoIndex name ver = some e ∧
        e.state = ModelState.READY) :
    ∀ fuel, waitForModel sv name ver fuel 0 =
        .error ClientError.timeoutError ∧
      waitForModel sv name ver fuel 0 ≠
        .error ClientError.modelUnavailableError := by
  intro fuel
  have hto := waitForModel_timeout_of_probe_false sv name ver h fuel 0
  refine ⟨hto, ?_⟩
  rw [hto]
  decide

/-- Witness for C10 at the model_not_ready unit-test scenario. -/
theorem C10_probe_not_ready_is_transient_witness :
    waitForModel svProbeNotReady "AddSub" (some "1") 7 0 =
      .error ClientError.timeoutError :=
  (C10_probe_not_ready_is_transient svProbeNotReady "AddSub" (some "1")
    (fun _t => ⟨rfl, rfl, rfl, ⟨"AddSub", "1", ModelState.READY⟩, rfl, rfl⟩)
    7).1

end PyTriton
